import Mathlib

/-
  Shallow embedding of src/src/navqueue.c (Geany's navigation history queue).

  The queue holds NavigationAnchor records; head of the list is index 0
  (GQueue head, the most recently visited position).  External collaborators
  (Scintilla indicator substrate, document registry, editor cursor) are
  modelled as explicit state: each document slot carries its validity flag,
  file name, indicator value map `tags` (0 = untagged), the substrate's
  range-end oracle `indEnd` together with a bound `len` on its values
  (a real Scintilla end never advances past the document length), the
  current editor position `cur_pos`, and a `goto_ok` oracle saying whether
  `editor_goto_pos` to a given position succeeds.
-/

namespace Navqueue

/-- Document slots: GeanyDocument pointers stay valid forever, the pointed-to
record is zeroed when closed; a slot index models the pointer. -/
abbrev DocId := Nat

/-- State of one document slot, including the marker substrate for the
navigation indicator in its Scintilla buffer. -/
structure DocState where
  is_valid : Bool
  file_name : Option String
  /-- Indicator value at each position; 0 means untagged. -/
  tags : Nat → Nat
  /-- Substrate range-end oracle: SCI_INDICATOREND for the navigation
  indicator.  Modelled from the spec: `range_end_from(offset) -> offset`. -/
  indEnd : Nat → Nat
  /-- Bound on `indEnd` values (document length); used to fuel the scan. -/
  len : Nat
  /-- Current editor position, `sci_get_current_position`. -/
  cur_pos : Nat
  /-- Modelled from the spec: `goto_offset(document_handle, offset) -> success`;
  whether `editor_goto_pos` to this offset succeeds. -/
  goto_ok : Nat → Bool

/-- The navigation history entry (struct NavigationAnchor in navqueue.c). -/
structure NavigationAnchor where
  file : String
  doc : Option DocId
  id : Nat
  pos : Nat
  deriving Repr, DecidableEq

/-- The whole mutable state: the static globals of navqueue.c plus the
external document/substrate state the code reads and writes. -/
structure NavState where
  /-- navigation_queue; list head is GQueue head (index 0, newest). -/
  queue : List NavigationAnchor
  /-- nav_queue_pos. -/
  pos : Nat
  /-- counter. -/
  counter : Nat
  /-- sensitivity of navigation_buttons[0] (NavBack). -/
  back_on : Bool
  /-- sensitivity of navigation_buttons[1] (NavFor). -/
  fwd_on : Bool
  /-- all document slots. -/
  docs : DocId → DocState
  /-- Modelled from the spec: the document registry's list of open slots,
  searched by `find_document_by_identity`. -/
  open_list : List DocId

def MAX_NAVQUEUE_LENGTH : Nat := 100

/-- utils_str_equal: NULL-safe string comparison (utils.c, external). -/
def utils_str_equal : Option String → Option String → Bool
  | none, none => true
  | some a, some b => a == b
  | _, _ => false

/-- DOC_VALID macro: non-NULL pointer and is_valid flag set. -/
def DOC_VALID (s : NavState) : Option DocId → Bool
  | none => false
  | some d => (s.docs d).is_valid

/-- Modelled from the spec: the document registry lookup
`find_document_by_identity(path) -> document_handle | none`
(document_find_by_filename in document.c, not part of src/). -/
def document_find_by_filename (s : NavState) (file : String) : Option DocId :=
  s.open_list.find? fun d =>
    (s.docs d).is_valid && utils_str_equal (s.docs d).file_name (some file)

/-- Write one indicator unit: sci_indicator_set_value + sci_indicator_fill
(value v) or sci_indicator_clear (value 0) at position p of document d. -/
def setTag (s : NavState) (d : DocId) (p v : Nat) : NavState :=
  { s with docs := fun i =>
      if i = d then
        { s.docs i with tags := fun q => if q = p then v else (s.docs i).tags q }
      else s.docs i }

/-- Editor cursor move performed by a successful editor_goto_pos. -/
def setCurPos (s : NavState) (d : DocId) (p : Nat) : NavState :=
  { s with docs := fun i =>
      if i = d then { s.docs i with cur_pos := p } else s.docs i }

/-- Result of the slow-path indicator scan in refresh_anchor. -/
inductive ScanResult where
  | found (p : Nat)
  | gone
  | fuelOut
  deriving Repr, DecidableEq

/-- The do-while scan of refresh_anchor (navqueue.c lines 158-169):
starting at `p`, if the indicator value there is `i` report found; otherwise
step to the range end; exit with `gone` as soon as the end does not advance.
The C loop carries no fuel; `fuel` bounds the number of iterations and
`fuelOut` marks the runs on which the C loop would not yet have stopped
(with a substrate whose `indEnd` is bounded by the document length, fuel
`len + 1` is always enough, see the termination lemmas). -/
def scanForId (valueAt indEnd : Nat → Nat) (i : Nat) : Nat → Nat → ScanResult
  | 0, _ => ScanResult.fuelOut
  | fuel + 1, p =>
      if valueAt p = i then ScanResult.found p
      else
        let nxt := indEnd p
        if nxt ≤ p then ScanResult.gone
        else scanForId valueAt indEnd i fuel nxt

/-- The document re-resolution step at the top of refresh_anchor (navqueue.c
lines 140-143): keep `anchor->doc` when it is a valid document still named
`anchor->file`, otherwise look the file up in the registry. -/
def resolve_doc (s : NavState) (a : NavigationAnchor) : Option DocId :=
  if !DOC_VALID s a.doc
      || !(match a.doc with
           | none => false
           | some d => utils_str_equal (s.docs d).file_name (some a.file)) then
    document_find_by_filename s a.file
  else a.doc

/-- refresh_anchor (navqueue.c lines 136-175).  Pure in the state (only the
anchor record is mutated in C); returns the updated anchor, whose `doc`
field holds the re-resolved binding in every branch. -/
def refresh_anchor (s : NavState) (a : NavigationAnchor) : NavigationAnchor :=
  match resolve_doc s a with
  | none => { a with doc := none }
  | some d =>
      if a.id = 0 then { a with doc := some d }
      else if (s.docs d).tags a.pos = a.id then { a with doc := some d }
      else
        match scanForId (s.docs d).tags (s.docs d).indEnd a.id ((s.docs d).len + 1) 0 with
        | ScanResult.found p => { a with doc := some d, pos := p }
        | _ => { a with doc := some d, id := 0 }

/-- set_anchor (navqueue.c lines 120-133): bump the counter, build the anchor
and tag one indicator unit at its position.  The file name is the document's
(non-NULL, checked by the caller). -/
def set_anchor (s : NavState) (d : DocId) (fn : String) (p : Nat) : NavState × NavigationAnchor :=
  let c := s.counter + 1
  ({ setTag s d p c with counter := c },
   { file := fn, doc := some d, id := c, pos := p })

/-- clear_anchor (navqueue.c lines 178-191): refresh, then clear the one-unit
indicator range at the refreshed position only when the substrate value
there equals the anchor's own id. -/
def clear_anchor (s : NavState) (a : NavigationAnchor) : NavState :=
  let a := refresh_anchor s a
  match a.doc with
  | none => s
  | some d => if (s.docs d).tags a.pos = a.id then setTag s d a.pos 0 else s

/-- queue_pos_matches (navqueue.c lines 194-208).  The refresh writes the
anchor back into the queue (in C the queue holds the mutated heap object). -/
def queue_pos_matches (s : NavState) (qp : Nat) (d : DocId) (p : Nat) : NavState × Bool :=
  if qp < s.queue.length then
    match s.queue.get? qp with
    | none => (s, false)
    | some a =>
        if utils_str_equal (some a.file) ((s.docs d).file_name) then
          let a2 := refresh_anchor s a
          ({ s with queue := s.queue.set qp a2 }, a2.pos == p)
        else (s, false)
  else (s, false)

/-- adjust_buttons (navqueue.c lines 96-117). -/
def adjust_buttons (s : NavState) : NavState :=
  if s.queue.length < 2 then { s with back_on := false, fwd_on := false }
  else if s.pos = 0 then { s with back_on := true, fwd_on := false }
  else { s with fwd_on := true, back_on := decide (s.pos < s.queue.length - 1) }

/-- The forward-history truncation loop of navqueue_add_position (lines
222-226): while nav_queue_pos > 0, pop the head, clear it, decrement.
Fuel is the starting nav_queue_pos, which is exactly the iteration count. -/
def truncGo : Nat → NavState → NavState
  | 0, s => s
  | n + 1, s =>
      match s.queue with
      | [] => truncGo n { s with pos := n }
      | a :: rest => truncGo n { clear_anchor { s with queue := rest } a with pos := n }

/-- The length-bound loop of navqueue_add_position (lines 232-233): while the
queue is longer than MAX_NAVQUEUE_LENGTH, pop the tail and clear it.  Fuel
is the queue length, an upper bound on the iteration count. -/
def trimGo : Nat → NavState → NavState
  | 0, s => s
  | n + 1, s =>
      if MAX_NAVQUEUE_LENGTH < s.queue.length then
        match s.queue.getLast? with
        | none => s
        | some a => trimGo n (clear_anchor { s with queue := s.queue.dropLast } a)
      else s

/-- The no-match path of navqueue_add_position (lines 222-235): truncate the
forward history, push a fresh anchor at the head, trim to the length bound
and recompute the buttons. -/
def add_full (s : NavState) (d : DocId) (fn : String) (p : Nat) : NavState :=
  let s1 := truncGo s.pos s
  let sa := set_anchor s1 d fn p
  let s2 := { sa.1 with queue := sa.2 :: sa.1.queue }
  adjust_buttons (trimGo s2.queue.length s2)

/-- navqueue_add_position (navqueue.c lines 211-236). -/
def navqueue_add_position (s : NavState) (d : DocId) (p : Nat) : NavState :=
  match (s.docs d).file_name with
  | none => s
  | some fn =>
      let m := queue_pos_matches s s.pos d p
      if m.2 then m.1 else add_full m.1 d fn p

/-- goto_anchor (navqueue.c lines 275-281): refresh; fail when no document
resolves; otherwise editor_goto_pos to the refreshed position (moving the
editor cursor on success).  Returns the refreshed anchor (mutated in place
in C) and the success flag. -/
def goto_anchor (s : NavState) (a : NavigationAnchor) : NavState × NavigationAnchor × Bool :=
  let a2 := refresh_anchor s a
  match a2.doc with
  | none => (s, a2, false)
  | some d =>
      if (s.docs d).goto_ok a2.pos then (setCurPos s d a2.pos, a2, true)
      else (s, a2, false)

/-- The stepping phase of navqueue_go_back (lines 299-315), after the initial
record of the current position. -/
def go_back_step (s : NavState) : NavState :=
  if s.queue.length = 0 ∨ s.queue.length - 1 ≤ s.pos then s
  else
    match s.queue.get? (s.pos + 1) with
    | none => s
    | some prevA =>
        let r := goto_anchor s prevA
        if r.2.2 then
          adjust_buttons { r.1 with queue := r.1.queue.set (s.pos + 1) r.2.1, pos := s.pos + 1 }
        else
          adjust_buttons (clear_anchor { r.1 with queue := r.1.queue.eraseIdx (s.pos + 1) } r.2.1)

/-- navqueue_go_back (navqueue.c lines 284-316).  `cur` is
document_get_current(); the current position is read from the document. -/
def navqueue_go_back (s : NavState) (cur : Option DocId) : NavState :=
  go_back_step (match cur with
    | some d => navqueue_add_position s d (s.docs d).cur_pos
    | none => s)

/-- navqueue_go_forward (navqueue.c lines 319-340). -/
def navqueue_go_forward (s : NavState) : NavState :=
  if s.pos < 1 ∨ s.queue.length ≤ s.pos then s
  else
    match s.queue.get? (s.pos - 1) with
    | none => s
    | some nextA =>
        let r := goto_anchor s nextA
        if r.2.2 then
          adjust_buttons { r.1 with queue := r.1.queue.set (s.pos - 1) r.2.1, pos := s.pos - 1 }
        else
          adjust_buttons (clear_anchor { r.1 with queue := r.1.queue.eraseIdx (s.pos - 1) } r.2.1)

/-- find_by_filename (navqueue.c lines 343-349) as the match predicate used
by g_queue_find_custom. -/
def find_by_filename (a : NavigationAnchor) (f : String) : Bool :=
  utils_str_equal (some a.file) (some f)

/-- The removal loop of navqueue_remove_file (lines 360-364): while some
entry matches the filename, clear the first such entry and delete its link.
Fuel is the queue length, an upper bound on the iteration count. -/
def removeGo (f : String) : Nat → NavState → NavState
  | 0, s => s
  | n + 1, s =>
      match s.queue.find? (fun a => find_by_filename a f) with
      | none => s
      | some a =>
          let s1 := clear_anchor s a
          removeGo f n { s1 with queue := s1.queue.eraseP (fun x => find_by_filename x f) }

/-- navqueue_remove_file (navqueue.c lines 353-372). -/
def navqueue_remove_file (s : NavState) (filename : Option String) : NavState :=
  match filename with
  | none => s
  | some f =>
      let s1 := removeGo f s.queue.length s
      let s2 := if s1.queue.length ≤ s1.pos then { s1 with pos := 0 } else s1
      adjust_buttons s2

/-- navqueue_init (navqueue.c lines 72-83): empty queue, cursor 0, counter 0,
both buttons insensitive.  The external document state is a parameter. -/
def navqueue_init (docs : DocId → DocState) (ol : List DocId) : NavState :=
  { queue := [], pos := 0, counter := 0, back_on := false, fwd_on := false,
    docs := docs, open_list := ol }

/-- A sequence of navqueue_add_position calls, for trace properties. -/
def recordAll (s : NavState) : List (DocId × Nat) → NavState
  | [] => s
  | c :: rest => recordAll (navqueue_add_position s c.1 c.2) rest

/-! ### Helper lemmas: component preservation -/

@[simp] theorem adjust_buttons_queue (s : NavState) : (adjust_buttons s).queue = s.queue := by
  unfold adjust_buttons; split <;> [rfl; skip]; split <;> rfl

@[simp] theorem adjust_buttons_pos (s : NavState) : (adjust_buttons s).pos = s.pos := by
  unfold adjust_buttons; split <;> [rfl; skip]; split <;> rfl

@[simp] theorem adjust_buttons_docs (s : NavState) : (adjust_buttons s).docs = s.docs := by
  unfold adjust_buttons; split <;> [rfl; skip]; split <;> rfl

@[simp] theorem setTag_queue (s : NavState) (d p v : Nat) : (setTag s d p v).queue = s.queue := rfl

@[simp] theorem setTag_pos (s : NavState) (d p v : Nat) : (setTag s d p v).pos = s.pos := rfl

@[simp] theorem setTag_counter (s : NavState) (d p v : Nat) :
    (setTag s d p v).counter = s.counter := rfl

@[simp] theorem setTag_open_list (s : NavState) (d p v : Nat) :
    (setTag s d p v).open_list = s.open_list := rfl

theorem setTag_docs_is_valid (s : NavState) (d p v : Nat) (i : DocId) :
    ((setTag s d p v).docs i).is_valid = (s.docs i).is_valid := by
  simp only [setTag]; split <;> rfl

theorem setTag_docs_file_name (s : NavState) (d p v : Nat) (i : DocId) :
    ((setTag s d p v).docs i).file_name = (s.docs i).file_name := by
  simp only [setTag]; split <;> rfl

theorem setTag_tags (s : NavState) (d p v : Nat) (i q : Nat) :
    ((setTag s d p v).docs i).tags q =
      if i = d ∧ q = p then v else (s.docs i).tags q := by
  simp only [setTag]
  by_cases hi : i = d <;> by_cases hq : q = p <;> simp [hi, hq]

@[simp] theorem setCurPos_queue (s : NavState) (d p : Nat) : (setCurPos s d p).queue = s.queue := rfl

@[simp] theorem setCurPos_pos (s : NavState) (d p : Nat) : (setCurPos s d p).pos = s.pos := rfl

theorem clear_anchor_queue (s : NavState) (a : NavigationAnchor) :
    (clear_anchor s a).queue = s.queue := by
  simp only [clear_anchor]; split
  · rfl
  · split <;> rfl

theorem clear_anchor_pos (s : NavState) (a : NavigationAnchor) :
    (clear_anchor s a).pos = s.pos := by
  simp only [clear_anchor]; split
  · rfl
  · split <;> rfl

theorem clear_anchor_counter (s : NavState) (a : NavigationAnchor) :
    (clear_anchor s a).counter = s.counter := by
  simp only [clear_anchor]; split
  · rfl
  · split <;> rfl

theorem clear_anchor_open_list (s : NavState) (a : NavigationAnchor) :
    (clear_anchor s a).open_list = s.open_list := by
  simp only [clear_anchor]; split
  · rfl
  · split <;> rfl

theorem clear_anchor_docs_is_valid (s : NavState) (a : NavigationAnchor) (i : DocId) :
    ((clear_anchor s a).docs i).is_valid = (s.docs i).is_valid := by
  simp only [clear_anchor]; split
  · rfl
  · split
    · exact setTag_docs_is_valid ..
    · rfl

theorem clear_anchor_docs_file_name (s : NavState) (a : NavigationAnchor) (i : DocId) :
    ((clear_anchor s a).docs i).file_name = (s.docs i).file_name := by
  simp only [clear_anchor]; split
  · rfl
  · split
    · exact setTag_docs_file_name ..
    · rfl

/-! ### Helper lemmas: refresh_anchor and the scan -/

theorem refresh_anchor_file (s : NavState) (a : NavigationAnchor) :
    (refresh_anchor s a).file = a.file := by
  cases hres : resolve_doc s a with
  | none => simp [refresh_anchor, hres]
  | some d =>
      simp only [refresh_anchor, hres]
      split
      · rfl
      · split
        · rfl
        · split <;> rfl

theorem refresh_anchor_id_cases (s : NavState) (a : NavigationAnchor) :
    (refresh_anchor s a).id = a.id ∨ (refresh_anchor s a).id = 0 := by
  cases hres : resolve_doc s a with
  | none => simp [refresh_anchor, hres]
  | some d =>
      simp only [refresh_anchor, hres]
      split
      · exact Or.inl rfl
      · split
        · exact Or.inl rfl
        · split
          · exact Or.inl rfl
          · exact Or.inr rfl

theorem refresh_anchor_doc (s : NavState) (a : NavigationAnchor) :
    (refresh_anchor s a).doc = resolve_doc s a := by
  cases hres : resolve_doc s a with
  | none => simp [refresh_anchor, hres]
  | some d =>
      simp only [refresh_anchor, hres]
      split
      · rfl
      · split
        · rfl
        · split <;> rfl

theorem refresh_anchor_id_le (s : NavState) (a : NavigationAnchor) :
    (refresh_anchor s a).id ≤ a.id := by
  rcases refresh_anchor_id_cases s a with h | h <;> omega

/-- If the slow scan reports `found p`, the indicator value at `p` is the
sought id. -/
theorem scanForId_found (valueAt indEnd : Nat → Nat) (i : Nat) :
    ∀ fuel p q, scanForId valueAt indEnd i fuel p = ScanResult.found q → valueAt q = i := by
  intro fuel
  induction fuel with
  | zero => intro p q h; simp [scanForId] at h
  | succ n ih =>
      intro p q h
      simp only [scanForId] at h
      split at h
      · cases h; assumption
      · split at h
        · cases h
        · exact ih _ _ h

/-- A successful re-resolution names a valid slot carrying the anchor's
file name. -/
theorem resolve_doc_good (s : NavState) (a : NavigationAnchor) (d : DocId)
    (h : resolve_doc s a = some d) :
    (s.docs d).is_valid = true ∧
      utils_str_equal (s.docs d).file_name (some a.file) = true := by
  unfold resolve_doc at h
  split at h
  · -- re-resolved via the registry
    have := List.find?_some h
    simp only [Bool.and_eq_true] at this
    exact ⟨this.1, this.2⟩
  · -- kept: the guard said valid and name-matching
    next hg =>
      simp only [Bool.or_eq_true, Bool.not_eq_true'] at hg
      push_neg at hg
      obtain ⟨hv, hn⟩ := hg
      cases ha : a.doc with
      | none => rw [ha] at h; cases h
      | some dd =>
          rw [ha] at h; cases h
          rw [ha] at hv hn
          refine ⟨?_, by simpa using hn⟩
          simpa [DOC_VALID] using hv

/-- A failed re-resolution means the registry has no document for the file. -/
theorem resolve_doc_none (s : NavState) (a : NavigationAnchor)
    (h : resolve_doc s a = none) :
    document_find_by_filename s a.file = none := by
  unfold resolve_doc at h
  split at h
  · exact h
  · next hg =>
      exfalso
      cases ha : a.doc with
      | none => simp [ha, DOC_VALID] at hg
      | some dd => rw [ha] at h; cases h

/-- An anchor whose binding is a valid, correctly named slot keeps it. -/
theorem resolve_doc_of_good (s : NavState) (a : NavigationAnchor) (d : DocId)
    (hdoc : a.doc = some d) (hv : (s.docs d).is_valid = true)
    (hn : utils_str_equal (s.docs d).file_name (some a.file) = true) :
    resolve_doc s a = some d := by
  unfold resolve_doc
  simp [hdoc, DOC_VALID, hv, hn]

/-- Value-level frame property of clear_anchor: the indicator value at any
position other than one holding the destroyed anchor's refreshed id is
untouched. -/
theorem clear_anchor_tags_of_ne (s : NavState) (a : NavigationAnchor) (dd : DocId) (q : Nat)
    (h : (s.docs dd).tags q ≠ (refresh_anchor s a).id) :
    ((clear_anchor s a).docs dd).tags q = (s.docs dd).tags q := by
  simp only [clear_anchor]
  split
  · rfl
  · next d hd =>
      split
      · next heq =>
          rw [setTag_tags]
          split
          · next hqp =>
              exfalso
              obtain ⟨h1, h2⟩ := hqp
              subst h1 h2
              exact h heq
          · rfl
      · rfl

/-- refresh_anchor only reads the document and registry state. -/
theorem refresh_anchor_congr (s1 s2 : NavState) (a : NavigationAnchor)
    (h1 : s1.docs = s2.docs) (h2 : s1.open_list = s2.open_list) :
    refresh_anchor s1 a = refresh_anchor s2 a := by
  unfold refresh_anchor resolve_doc DOC_VALID document_find_by_filename
  rw [h1, h2]

/-- A refreshed anchor with a live binding and a live id sits on its own tag. -/
theorem refresh_anchor_post (s : NavState) (a : NavigationAnchor) (d : DocId)
    (h : resolve_doc s a = some d) :
    (refresh_anchor s a).id = 0 ∨
      (s.docs d).tags (refresh_anchor s a).pos = (refresh_anchor s a).id := by
  simp only [refresh_anchor, h]
  split
  · next hid => exact Or.inl hid
  · split
    · next hfast => exact Or.inr hfast
    · split
      · next q hq => exact Or.inr (scanForId_found _ _ _ _ _ _ hq)
      · exact Or.inl rfl

theorem refresh_anchor_of_resolve_none (s : NavState) (a : NavigationAnchor)
    (h : resolve_doc s a = none) : refresh_anchor s a = { a with doc := none } := by
  simp [refresh_anchor, h]

theorem refresh_anchor_of_id_zero (s : NavState) (a : NavigationAnchor) (d : DocId)
    (h : resolve_doc s a = some d) (hid : a.id = 0) :
    refresh_anchor s a = { a with doc := some d } := by
  simp [refresh_anchor, h, hid]

theorem refresh_anchor_of_fast (s : NavState) (a : NavigationAnchor) (d : DocId)
    (h : resolve_doc s a = some d) (hid : a.id ≠ 0)
    (hfast : (s.docs d).tags a.pos = a.id) :
    refresh_anchor s a = { a with doc := some d } := by
  simp [refresh_anchor, h, hid, hfast]

theorem anchor_set_doc_self (x : NavigationAnchor) (o : Option DocId) (h : x.doc = o) :
    { x with doc := o } = x := by
  cases x
  cases h
  rfl

/-- Refreshing twice in the same state is the same as refreshing once. -/
theorem refresh_anchor_idem (s : NavState) (a : NavigationAnchor) :
    refresh_anchor s (refresh_anchor s a) = refresh_anchor s a := by
  cases hres : resolve_doc s a with
  | none =>
      have hdoc2 : (refresh_anchor s a).doc = none := by rw [refresh_anchor_doc, hres]
      have hres2 : resolve_doc s (refresh_anchor s a) = none := by
        unfold resolve_doc
        rw [if_pos]
        · rw [refresh_anchor_file]
          exact resolve_doc_none s a hres
        · simp [DOC_VALID, hdoc2]
      rw [refresh_anchor_of_resolve_none s _ hres2]
      exact anchor_set_doc_self _ _ hdoc2
  | some d =>
      obtain ⟨hv, hn⟩ := resolve_doc_good s a d hres
      have hdoc2 : (refresh_anchor s a).doc = some d := by
        rw [refresh_anchor_doc, hres]
      have hres2 : resolve_doc s (refresh_anchor s a) = some d :=
        resolve_doc_of_good s _ d hdoc2 hv (by rw [refresh_anchor_file]; exact hn)
      by_cases hid0 : (refresh_anchor s a).id = 0
      · rw [refresh_anchor_of_id_zero s _ d hres2 hid0]
        exact anchor_set_doc_self _ _ hdoc2
      · rcases refresh_anchor_post s a d hres with hid | hfast
        · exact absurd hid hid0
        · rw [refresh_anchor_of_fast s _ d hres2 hid0 hfast]
          exact anchor_set_doc_self _ _ hdoc2

/-! ### Helper lemmas: goto_anchor and queue_pos_matches -/

theorem goto_anchor_queue (s : NavState) (a : NavigationAnchor) :
    (goto_anchor s a).1.queue = s.queue := by
  simp only [goto_anchor]; split
  · rfl
  · split <;> rfl

theorem goto_anchor_pos (s : NavState) (a : NavigationAnchor) :
    (goto_anchor s a).1.pos = s.pos := by
  simp only [goto_anchor]; split
  · rfl
  · split <;> rfl

theorem goto_anchor_snd (s : NavState) (a : NavigationAnchor) :
    (goto_anchor s a).2.1 = refresh_anchor s a := by
  simp only [goto_anchor]; split
  · rfl
  · split <;> rfl

theorem queue_pos_matches_docs (s : NavState) (qp : Nat) (d : DocId) (p : Nat) :
    (queue_pos_matches s qp d p).1.docs = s.docs := by
  simp only [queue_pos_matches]; split
  · split
    · rfl
    · split <;> rfl
  · rfl

theorem queue_pos_matches_open_list (s : NavState) (qp : Nat) (d : DocId) (p : Nat) :
    (queue_pos_matches s qp d p).1.open_list = s.open_list := by
  simp only [queue_pos_matches]; split
  · split
    · rfl
    · split <;> rfl
  · rfl

theorem queue_pos_matches_pos (s : NavState) (qp : Nat) (d : DocId) (p : Nat) :
    (queue_pos_matches s qp d p).1.pos = s.pos := by
  simp only [queue_pos_matches]; split
  · split
    · rfl
    · split <;> rfl
  · rfl

theorem queue_pos_matches_counter (s : NavState) (qp : Nat) (d : DocId) (p : Nat) :
    (queue_pos_matches s qp d p).1.counter = s.counter := by
  simp only [queue_pos_matches]; split
  · split
    · rfl
    · split <;> rfl
  · rfl

theorem queue_pos_matches_length (s : NavState) (qp : Nat) (d : DocId) (p : Nat) :
    (queue_pos_matches s qp d p).1.queue.length = s.queue.length := by
  simp only [queue_pos_matches]; split
  · split
    · rfl
    · split
      · simp [List.length_set]
      · rfl
  · rfl

theorem queue_pos_matches_mem_id (s : NavState) (qp : Nat) (d : DocId) (p : Nat) (c : Nat)
    (h : ∀ x ∈ s.queue, x.id ≤ c) :
    ∀ x ∈ (queue_pos_matches s qp d p).1.queue, x.id ≤ c := by
  simp only [queue_pos_matches]; split
  · split
    · exact h
    · next a ha =>
        split
        · intro x hx
          rcases List.mem_or_eq_of_mem_set hx with hx | rfl
          · exact h x hx
          · calc (refresh_anchor s a).id ≤ a.id := refresh_anchor_id_le s a
              _ ≤ c := h a (by exact List.get?_mem ha)
        · exact h
  · exact h

/-! ### Helper lemmas: the truncation and trimming loops -/

theorem truncGo_queue : ∀ (n : Nat) (s : NavState), (truncGo n s).queue = s.queue.drop n := by
  intro n
  induction n with
  | zero => intro s; rfl
  | succ m ih =>
      intro s
      simp only [truncGo]
      cases hq : s.queue with
      | nil => rw [ih]; simp
      | cons a rest =>
          rw [ih]
          have : (clear_anchor { s with queue := rest } a).queue = rest :=
            clear_anchor_queue ..
          simp [this]

theorem truncGo_pos : ∀ (n : Nat) (s : NavState),
    (truncGo n s).pos = if n = 0 then s.pos else 0 := by
  intro n
  induction n with
  | zero => intro s; simp [truncGo]
  | succ m ih =>
      intro s
      simp only [truncGo]
      cases hq : s.queue with
      | nil => rw [ih]; simp
      | cons a rest => rw [ih]; simp

theorem truncGo_counter : ∀ (n : Nat) (s : NavState), (truncGo n s).counter = s.counter := by
  intro n
  induction n with
  | zero => intro s; rfl
  | succ m ih =>
      intro s
      simp only [truncGo]
      cases hq : s.queue with
      | nil => rw [ih]
      | cons a rest =>
          rw [ih]
          exact clear_anchor_counter ..

theorem truncGo_open_list : ∀ (n : Nat) (s : NavState),
    (truncGo n s).open_list = s.open_list := by
  intro n
  induction n with
  | zero => intro s; rfl
  | succ m ih =>
      intro s
      simp only [truncGo]
      cases hq : s.queue with
      | nil => rw [ih]
      | cons a rest =>
          rw [ih]
          exact clear_anchor_open_list ..

theorem truncGo_docs_is_valid : ∀ (n : Nat) (s : NavState) (i : DocId),
    ((truncGo n s).docs i).is_valid = (s.docs i).is_valid := by
  intro n
  induction n with
  | zero => intro s i; rfl
  | succ m ih =>
      intro s i
      simp only [truncGo]
      cases hq : s.queue with
      | nil => rw [ih]
      | cons a rest =>
          rw [ih]
          exact clear_anchor_docs_is_valid ..

theorem truncGo_docs_file_name : ∀ (n : Nat) (s : NavState) (i : DocId),
    ((truncGo n s).docs i).file_name = (s.docs i).file_name := by
  intro n
  induction n with
  | zero => intro s i; rfl
  | succ m ih =>
      intro s i
      simp only [truncGo]
      cases hq : s.queue with
      | nil => rw [ih]
      | cons a rest =>
          rw [ih]
          exact clear_anchor_docs_file_name ..

theorem trimGo_pos : ∀ (n : Nat) (s : NavState), (trimGo n s).pos = s.pos := by
  intro n
  induction n with
  | zero => intro s; rfl
  | succ m ih =>
      intro s
      simp only [trimGo]
      split
      · cases hL : s.queue.getLast? with
        | none => rfl
        | some a => rw [ih, clear_anchor_pos]
      · rfl

theorem trimGo_counter : ∀ (n : Nat) (s : NavState), (trimGo n s).counter = s.counter := by
  intro n
  induction n with
  | zero => intro s; rfl
  | succ m ih =>
      intro s
      simp only [trimGo]
      split
      · cases hL : s.queue.getLast? with
        | none => rfl
        | some a => rw [ih, clear_anchor_counter]
      · rfl

theorem trimGo_open_list : ∀ (n : Nat) (s : NavState), (trimGo n s).open_list = s.open_list := by
  intro n
  induction n with
  | zero => intro s; rfl
  | succ m ih =>
      intro s
      simp only [trimGo]
      split
      · cases hL : s.queue.getLast? with
        | none => rfl
        | some a => rw [ih, clear_anchor_open_list]
      · rfl

theorem trimGo_docs_is_valid : ∀ (n : Nat) (s : NavState) (i : DocId),
    ((trimGo n s).docs i).is_valid = (s.docs i).is_valid := by
  intro n
  induction n with
  | zero => intro s i; rfl
  | succ m ih =>
      intro s i
      simp only [trimGo]
      split
      · cases hL : s.queue.getLast? with
        | none => rfl
        | some a => rw [ih, clear_anchor_docs_is_valid]
      · rfl

theorem trimGo_docs_file_name : ∀ (n : Nat) (s : NavState) (i : DocId),
    ((trimGo n s).docs i).file_name = (s.docs i).file_name := by
  intro n
  induction n with
  | zero => intro s i; rfl
  | succ m ih =>
      intro s i
      simp only [trimGo]
      split
      · cases hL : s.queue.getLast? with
        | none => rfl
        | some a => rw [ih, clear_anchor_docs_file_name]
      · rfl

/-- The trim loop of navqueue_add_position, fuelled with the queue length,
keeps exactly the newest MAX_NAVQUEUE_LENGTH entries. -/
theorem trimGo_queue : ∀ (n : Nat) (s : NavState), s.queue.length ≤ n →
    (trimGo n s).queue = s.queue.take MAX_NAVQUEUE_LENGTH := by
  intro n
  induction n with
  | zero =>
      intro s h
      have : s.queue = [] := List.eq_nil_of_length_eq_zero (Nat.le_zero.mp h)
      simp [trimGo, this]
  | succ m ih =>
      intro s h
      simp only [trimGo]
      split
      · next hgt =>
          cases hL : s.queue.getLast? with
          | none =>
              exfalso
              have : s.queue = [] := by
                cases hq : s.queue with
                | nil => rfl
                | cons x rest => rw [hq] at hL; simp [List.getLast?_eq_getElem?] at hL
              rw [this] at hgt
              simp [MAX_NAVQUEUE_LENGTH] at hgt
          | some a =>
              rw [ih]
              · rw [clear_anchor_queue]
                show (s.queue.dropLast).take MAX_NAVQUEUE_LENGTH
                    = s.queue.take MAX_NAVQUEUE_LENGTH
                rw [List.dropLast_eq_take, List.take_take]
                congr 1
                omega
              · rw [clear_anchor_queue]
                show (s.queue.dropLast).length ≤ m
                rw [List.length_dropLast]
                omega
      · next hle =>
          push_neg at hle
          exact (List.take_of_length_le hle).symm

/-- A member of the tail of `dropLast` is a member of the tail. -/
theorem mem_drop_one_dropLast {α : Type} {x : α} :
    ∀ {l : List α}, x ∈ l.dropLast.drop 1 → x ∈ l.drop 1 := by
  intro l
  cases l with
  | nil => simp
  | cons h t =>
      cases t with
      | nil => simp
      | cons y t2 =>
          rw [List.dropLast_cons₂]
          simp only [List.drop_succ_cons, List.drop_zero]
          exact fun hx => List.dropLast_subset _ hx

/-- Clearing evicted tail anchors whose ids are all below `v` cannot disturb
an indicator unit holding value `v`. -/
theorem trimGo_tags (hd : DocId) (pp v : Nat) :
    ∀ (n : Nat) (s : NavState), (s.docs hd).tags pp = v →
    (∀ x ∈ s.queue.drop 1, x.id < v) →
    ((trimGo n s).docs hd).tags pp = v := by
  intro n
  induction n with
  | zero => intro s htag _; exact htag
  | succ m ih =>
      intro s htag hids
      simp only [trimGo]
      split
      · next hgt =>
          cases hL : s.queue.getLast? with
          | none => exact htag
          | some a =>
              have hmem : a ∈ s.queue.drop 1 := by
                rcases hq : s.queue with _ | ⟨x, rest⟩
                · rw [hq] at hgt; simp [MAX_NAVQUEUE_LENGTH] at hgt
                · rcases hr : rest with _ | ⟨y, t⟩
                  · rw [hq, hr] at hgt; simp [MAX_NAVQUEUE_LENGTH] at hgt
                  · rw [hq, hr] at hL
                    rw [List.getLast?_cons_cons] at hL
                    simp only [List.drop_succ_cons, List.drop_zero]
                    exact List.mem_of_mem_getLast? (Option.mem_def.mpr hL)
              have haid : a.id < v := hids a hmem
              apply ih
              · -- the cleared position cannot hold value v
                have hne : (({ s with queue := s.queue.dropLast }).docs hd).tags pp
                    ≠ (refresh_anchor { s with queue := s.queue.dropLast } a).id := by
                  show (s.docs hd).tags pp
                      ≠ (refresh_anchor { s with queue := s.queue.dropLast } a).id
                  rw [htag]
                  rcases refresh_anchor_id_cases
                      { s with queue := s.queue.dropLast } a with hc | hc <;>
                    rw [hc] <;> omega
                rw [clear_anchor_tags_of_ne _ _ _ _ hne]
                exact htag
              · intro x hx
                apply hids
                rw [clear_anchor_queue] at hx
                exact mem_drop_one_dropLast hx
      · exact htag

/-! ### Helper lemmas: the removal loop -/

theorem filter_not_eraseP (p : NavigationAnchor → Bool) :
    ∀ l : List NavigationAnchor,
      (l.eraseP p).filter (fun x => !p x) = l.filter (fun x => !p x) := by
  intro l
  induction l with
  | nil => rfl
  | cons x l ih =>
      by_cases hp : p x = true
      · simp [List.eraseP_cons, hp, List.filter_cons]
      · simp only [Bool.not_eq_true] at hp
        simp [List.eraseP_cons, hp, List.filter_cons, ih]

theorem length_eraseP_of_find? (p : NavigationAnchor → Bool)
    (l : List NavigationAnchor) (a : NavigationAnchor) (h : l.find? p = some a) :
    (l.eraseP p).length + 1 = l.length := by
  have hany : l.any p = true :=
    List.any_eq_true.mpr ⟨a, List.mem_of_find?_eq_some h, List.find?_some h⟩
  have hne : l ≠ [] := by
    intro hnil
    rw [hnil] at h
    cases h
  have hlen : 0 < l.length := List.length_pos.mpr hne
  rw [List.length_eraseP, if_pos hany]
  omega

theorem removeGo_spec (f : String) : ∀ (n : Nat) (s : NavState), s.queue.length ≤ n →
    (removeGo f n s).queue = s.queue.filter (fun x => !(find_by_filename x f)) ∧
      (removeGo f n s).pos = s.pos := by
  intro n
  induction n with
  | zero =>
      intro s h
      have hq : s.queue = [] := List.eq_nil_of_length_eq_zero (Nat.le_zero.mp h)
      simp [removeGo, hq]
  | succ m ih =>
      intro s h
      simp only [removeGo]
      cases hf : s.queue.find? (fun a => find_by_filename a f) with
      | none =>
          constructor
          · have hall := List.find?_eq_none.mp hf
            exact (List.filter_eq_self.mpr fun a ha => by
              simpa using hall a ha).symm
          · rfl
      | some a =>
          have hcq : (clear_anchor s a).queue = s.queue := clear_anchor_queue ..
          have hlen : ((clear_anchor s a).queue.eraseP
              (fun x => find_by_filename x f)).length ≤ m := by
            rw [hcq]
            have := length_eraseP_of_find? (fun x => find_by_filename x f) s.queue a hf
            omega
          obtain ⟨h1, h2⟩ :=
            ih { clear_anchor s a with
                   queue := (clear_anchor s a).queue.eraseP (fun x => find_by_filename x f) }
              hlen
          constructor
          · rw [h1]
            show ((clear_anchor s a).queue.eraseP
                (fun x => find_by_filename x f)).filter _ = _
            rw [hcq, filter_not_eraseP]
          · rw [h2]
            exact clear_anchor_pos ..

/-! ### Helper lemmas: button recomputation -/

theorem adjust_buttons_back (s : NavState) :
    (adjust_buttons s).back_on = true ↔
      2 ≤ s.queue.length ∧ s.pos < s.queue.length - 1 := by
  unfold adjust_buttons
  split
  · next h => simp; omega
  · next h =>
      push_neg at h
      split
      · next h0 => simp; omega
      · next h0 => simp; omega

theorem adjust_buttons_fwd (s : NavState) :
    (adjust_buttons s).fwd_on = true ↔ 2 ≤ s.queue.length ∧ 0 < s.pos := by
  unfold adjust_buttons
  split
  · next h => simp; omega
  · next h =>
      push_neg at h
      split
      · next h0 => simp; omega
      · next h0 => simp; omega

theorem adjust_buttons_counter (s : NavState) : (adjust_buttons s).counter = s.counter := by
  unfold adjust_buttons; split <;> [rfl; skip]; split <;> rfl

theorem adjust_buttons_open_list (s : NavState) :
    (adjust_buttons s).open_list = s.open_list := by
  unfold adjust_buttons; split <;> [rfl; skip]; split <;> rfl

/-! ### Helper lemmas: the paths through navqueue_add_position -/

theorem navqueue_add_position_no_file (s : NavState) (d : DocId) (p : Nat)
    (hfn : (s.docs d).file_name = none) : navqueue_add_position s d p = s := by
  simp [navqueue_add_position, hfn]

theorem navqueue_add_position_dedup (s : NavState) (d : DocId) (p : Nat) (fn : String)
    (hfn : (s.docs d).file_name = some fn)
    (hm : (queue_pos_matches s s.pos d p).2 = true) :
    navqueue_add_position s d p = (queue_pos_matches s s.pos d p).1 := by
  simp [navqueue_add_position, hfn, hm]

/-- When queue_pos_matches reports a match, it found the queued anchor at the
probed index, its file matched, its refreshed offset is the probed one, and
the returned state only writes the refreshed anchor back. -/
theorem queue_pos_matches_true_inv (s : NavState) (qp : Nat) (d : DocId) (p : Nat)
    (h : (queue_pos_matches s qp d p).2 = true) :
    ∃ a, s.queue.get? qp = some a ∧
      utils_str_equal (some a.file) ((s.docs d).file_name) = true ∧
      (refresh_anchor s a).pos = p ∧
      (queue_pos_matches s qp d p).1
        = { s with queue := s.queue.set qp (refresh_anchor s a) } := by
  simp only [queue_pos_matches] at h ⊢
  by_cases hlt : qp < s.queue.length
  · rw [if_pos hlt] at h ⊢
    cases hget : s.queue.get? qp with
    | none => simp only [hget] at h; cases h
    | some a =>
        simp only [hget] at h ⊢
        by_cases hname : utils_str_equal (some a.file) ((s.docs d).file_name) = true
        · rw [if_pos hname] at h ⊢
          refine ⟨a, rfl, hname, ?_, rfl⟩
          simpa using h
        · rw [if_neg hname] at h
          simp at h
  · rw [if_neg hlt] at h
    simp at h

/-- Conversely, a found, name-matching, offset-matching anchor makes
queue_pos_matches report a match. -/
theorem queue_pos_matches_true_intro (s : NavState) (qp : Nat) (d : DocId) (p : Nat)
    (a : NavigationAnchor) (hget : s.queue.get? qp = some a)
    (hname : utils_str_equal (some a.file) ((s.docs d).file_name) = true)
    (hpos : (refresh_anchor s a).pos = p) :
    (queue_pos_matches s qp d p).2 = true ∧
      (queue_pos_matches s qp d p).1
        = { s with queue := s.queue.set qp (refresh_anchor s a) } := by
  obtain ⟨hlt, -⟩ := List.get?_eq_some.mp hget
  simp only [queue_pos_matches, if_pos hlt, hget]
  rw [if_pos hname]
  constructor
  · simp [hpos]
  · rfl

/-! ### Helper lemmas: add_full -/

theorem add_full_queue (s : NavState) (d : DocId) (fn : String) (p : Nat) :
    (add_full s d fn p).queue =
      (({ file := fn, doc := some d, id := s.counter + 1, pos := p } : NavigationAnchor)
        :: s.queue.drop s.pos).take MAX_NAVQUEUE_LENGTH := by
  simp only [add_full, set_anchor, adjust_buttons_queue]
  rw [trimGo_queue]
  · simp only [setTag_queue, truncGo_queue, truncGo_counter]
  · exact Nat.le_refl _

theorem add_full_pos (s : NavState) (d : DocId) (fn : String) (p : Nat) :
    (add_full s d fn p).pos = 0 := by
  simp only [add_full, set_anchor, adjust_buttons_pos]
  rw [trimGo_pos]
  show (setTag (truncGo s.pos s) d p ((truncGo s.pos s).counter + 1)).pos = 0
  rw [setTag_pos, truncGo_pos]
  split
  · next h => exact h
  · rfl

theorem add_full_counter (s : NavState) (d : DocId) (fn : String) (p : Nat) :
    (add_full s d fn p).counter = s.counter + 1 := by
  simp only [add_full, set_anchor, adjust_buttons_counter]
  rw [trimGo_counter]
  show (truncGo s.pos s).counter + 1 = s.counter + 1
  rw [truncGo_counter]

theorem add_full_open_list (s : NavState) (d : DocId) (fn : String) (p : Nat) :
    (add_full s d fn p).open_list = s.open_list := by
  simp only [add_full, set_anchor, adjust_buttons_open_list]
  rw [trimGo_open_list]
  show (setTag (truncGo s.pos s) d p ((truncGo s.pos s).counter + 1)).open_list = s.open_list
  rw [setTag_open_list, truncGo_open_list]

theorem add_full_docs_is_valid (s : NavState) (d : DocId) (fn : String) (p : Nat) (i : DocId) :
    ((add_full s d fn p).docs i).is_valid = (s.docs i).is_valid := by
  simp only [add_full, set_anchor, adjust_buttons_docs]
  rw [trimGo_docs_is_valid]
  show ((setTag (truncGo s.pos s) d p ((truncGo s.pos s).counter + 1)).docs i).is_valid = _
  rw [setTag_docs_is_valid, truncGo_docs_is_valid]

theorem add_full_docs_file_name (s : NavState) (d : DocId) (fn : String) (p : Nat) (i : DocId) :
    ((add_full s d fn p).docs i).file_name = (s.docs i).file_name := by
  simp only [add_full, set_anchor, adjust_buttons_docs]
  rw [trimGo_docs_file_name]
  show ((setTag (truncGo s.pos s) d p ((truncGo s.pos s).counter + 1)).docs i).file_name = _
  rw [setTag_docs_file_name, truncGo_docs_file_name]

/-- The fresh anchor tag written by add_full survives the trimming of old
anchors, whose ids are all at most the old counter. -/
theorem add_full_tags (s : NavState) (d : DocId) (fn : String) (p : Nat)
    (hwf : ∀ x ∈ s.queue, x.id ≤ s.counter) :
    ((add_full s d fn p).docs d).tags p = s.counter + 1 := by
  simp only [add_full, set_anchor, adjust_buttons_docs]
  have hc : (truncGo s.pos s).counter = s.counter := truncGo_counter ..
  apply trimGo_tags
  · show ((setTag (truncGo s.pos s) d p ((truncGo s.pos s).counter + 1)).docs d).tags p = _
    rw [setTag_tags, hc]
    simp
  · intro x hx
    show x.id < s.counter + 1
    simp only [List.drop_succ_cons, List.drop_zero] at hx
    rw [setTag_queue, truncGo_queue] at hx
    have := hwf x (List.mem_of_mem_drop hx)
    omega

/-- When the match fails on a named document, navqueue_add_position runs the
full path starting from the match-updated state. -/
theorem navqueue_add_position_full_eq (s : NavState) (d : DocId) (p : Nat) (fn : String)
    (hfn : (s.docs d).file_name = some fn)
    (hm : (queue_pos_matches s s.pos d p).2 = false) :
    navqueue_add_position s d p = add_full (queue_pos_matches s s.pos d p).1 d fn p := by
  simp [navqueue_add_position, hfn, hm]

/-! ### Helper lemmas: the stepping phases of go_back and go_forward -/

/-- Structure of the stepping phase of navqueue_go_back when a step is due:
the targeted entry exists, and depending on goto_anchor's success either the
cursor advances with the length unchanged, or the entry is removed with the
cursor unchanged. -/
theorem go_back_step_cases (s : NavState)
    (h0 : s.queue.length ≠ 0) (h1 : s.pos < s.queue.length - 1) :
    ∃ a, s.queue.get? (s.pos + 1) = some a ∧
      (((goto_anchor s a).2.2 = true ∧
          (go_back_step s).queue.length = s.queue.length ∧
          (go_back_step s).pos = s.pos + 1) ∨
       ((goto_anchor s a).2.2 = false ∧
          (go_back_step s).queue.length = s.queue.length - 1 ∧
          (go_back_step s).pos = s.pos)) := by
  have hlt : s.pos + 1 < s.queue.length := by omega
  have hget : s.queue.get? (s.pos + 1) = some (s.queue.get ⟨s.pos + 1, hlt⟩) :=
    List.get?_eq_get hlt
  refine ⟨_, hget, ?_⟩
  have hguard : ¬(s.queue.length = 0 ∨ s.queue.length - 1 ≤ s.pos) := by omega
  simp only [go_back_step, if_neg hguard, hget]
  cases hg : (goto_anchor s (s.queue.get ⟨s.pos + 1, hlt⟩)).2.2
  · refine Or.inr ⟨rfl, ?_, ?_⟩
    · simp only [Bool.false_eq_true, if_false, adjust_buttons_queue, clear_anchor_queue]
      show ((goto_anchor s _).1.queue.eraseIdx (s.pos + 1)).length = s.queue.length - 1
      rw [goto_anchor_queue, List.length_eraseIdx, if_pos hlt]
    · simp only [Bool.false_eq_true, if_false, adjust_buttons_pos]
      rw [clear_anchor_pos]
      show (goto_anchor s _).1.pos = s.pos
      exact goto_anchor_pos ..
  · refine Or.inl ⟨rfl, ?_, ?_⟩
    · simp only [eq_self_iff_true, if_true, adjust_buttons_queue]
      show ((goto_anchor s _).1.queue.set (s.pos + 1) _).length = s.queue.length
      rw [List.length_set, goto_anchor_queue]
    · simp only [eq_self_iff_true, if_true, adjust_buttons_pos]

/-- Structure of navqueue_go_forward when a step is due. -/
theorem go_forward_cases (s : NavState)
    (h0 : 1 ≤ s.pos) (h1 : s.pos < s.queue.length) :
    ∃ a, s.queue.get? (s.pos - 1) = some a ∧
      (((goto_anchor s a).2.2 = true ∧
          (navqueue_go_forward s).queue.length = s.queue.length ∧
          (navqueue_go_forward s).pos = s.pos - 1) ∨
       ((goto_anchor s a).2.2 = false ∧
          (navqueue_go_forward s).queue.length = s.queue.length - 1 ∧
          (navqueue_go_forward s).pos = s.pos)) := by
  have hlt : s.pos - 1 < s.queue.length := by omega
  have hget : s.queue.get? (s.pos - 1) = some (s.queue.get ⟨s.pos - 1, hlt⟩) :=
    List.get?_eq_get hlt
  refine ⟨_, hget, ?_⟩
  have hguard : ¬(s.pos < 1 ∨ s.queue.length ≤ s.pos) := by omega
  simp only [navqueue_go_forward, if_neg hguard, hget]
  cases hg : (goto_anchor s (s.queue.get ⟨s.pos - 1, hlt⟩)).2.2
  · refine Or.inr ⟨rfl, ?_, ?_⟩
    · simp only [Bool.false_eq_true, if_false, adjust_buttons_queue, clear_anchor_queue]
      show ((goto_anchor s _).1.queue.eraseIdx (s.pos - 1)).length = s.queue.length - 1
      rw [goto_anchor_queue, List.length_eraseIdx, if_pos hlt]
    · simp only [Bool.false_eq_true, if_false, adjust_buttons_pos]
      rw [clear_anchor_pos]
      show (goto_anchor s _).1.pos = s.pos
      exact goto_anchor_pos ..
  · refine Or.inl ⟨rfl, ?_, ?_⟩
    · simp only [eq_self_iff_true, if_true, adjust_buttons_queue]
      show ((goto_anchor s _).1.queue.set (s.pos - 1) _).length = s.queue.length
      rw [List.length_set, goto_anchor_queue]
    · simp only [eq_self_iff_true, if_true, adjust_buttons_pos]

/-! ### Concrete fixtures for witnesses and counterexamples -/

/-- A closed, empty document slot. -/
def exDummyDoc : DocState :=
  { is_valid := false, file_name := none, tags := fun _ => 0, indEnd := fun _ => 0,
    len := 0, cur_pos := 0, goto_ok := fun _ => true }

/-- An open document named "f" whose indicator tags position 5 with id 3. -/
def exDocF : DocState :=
  { is_valid := true, file_name := some "f", tags := fun q => if q = 5 then 3 else 0,
    indEnd := fun _ => 0, len := 20, cur_pos := 5, goto_ok := fun _ => true }

/-- An open document named "g" with no indicator tags. -/
def exDocG : DocState :=
  { is_valid := true, file_name := some "g", tags := fun _ => 0,
    indEnd := fun _ => 0, len := 20, cur_pos := 0, goto_ok := fun _ => true }

/-- A live anchor in "f" sitting on its tag at position 5. -/
def exA0 : NavigationAnchor := { file := "f", doc := some 0, id := 3, pos := 5 }

/-- An anchor in "f" whose marker was lost (id 0), cached position 7. -/
def exA1 : NavigationAnchor := { file := "f", doc := some 0, id := 0, pos := 7 }

/-- Two-entry history over document 0, cursor at the newest entry. -/
def exS1 : NavState :=
  { queue := [exA0, exA1], pos := 0, counter := 3, back_on := true, fwd_on := false,
    docs := fun i => if i = 0 then exDocF else exDummyDoc, open_list := [0] }

/-- Two-entry history with the cursor stepped back to index 1, and a second
open document "g" to record fresh positions in. -/
def exS2 : NavState :=
  { queue := [exA0, exA1], pos := 1, counter := 3, back_on := false, fwd_on := true,
    docs := fun i => if i = 0 then exDocF else if i = 1 then exDocG else exDummyDoc,
    open_list := [0, 1] }

/-! ### C7 -/

/-- C7: After every queue mutation the affordance adapter is told exactly:
back enabled iff length ≥ 2 and cursor < length - 1, forward enabled iff
length ≥ 2 and cursor > 0 (adjust_buttons is the notification; shown for
adjust_buttons on any state and for the state left by navqueue_remove_file,
which always ends in adjust_buttons); in particular with cursor 0 and
length ≥ 2 back is enabled and forward disabled, and with length < 2 both
are disabled. -/
theorem C7_affordance_rule :
    (∀ s : NavState,
      ((adjust_buttons s).back_on = true ↔
        2 ≤ s.queue.length ∧ s.pos < s.queue.length - 1) ∧
      ((adjust_buttons s).fwd_on = true ↔ 2 ≤ s.queue.length ∧ 0 < s.pos)) ∧
    (∀ (s : NavState) (f : String),
      ((navqueue_remove_file s (some f)).back_on = true ↔
        2 ≤ (navqueue_remove_file s (some f)).queue.length ∧
          (navqueue_remove_file s (some f)).pos
            < (navqueue_remove_file s (some f)).queue.length - 1) ∧
      ((navqueue_remove_file s (some f)).fwd_on = true ↔
        2 ≤ (navqueue_remove_file s (some f)).queue.length ∧
          0 < (navqueue_remove_file s (some f)).pos)) ∧
    (∀ s : NavState, s.pos = 0 → 2 ≤ s.queue.length →
      (adjust_buttons s).back_on = true ∧ (adjust_buttons s).fwd_on = false) ∧
    (∀ s : NavState, s.queue.length < 2 →
      (adjust_buttons s).back_on = false ∧ (adjust_buttons s).fwd_on = false) := by
  refine ⟨fun s => ⟨adjust_buttons_back s, adjust_buttons_fwd s⟩, ?_, ?_, ?_⟩
  · intro s f
    have h : navqueue_remove_file s (some f) = adjust_buttons
        (if (removeGo f s.queue.length s).queue.length ≤ (removeGo f s.queue.length s).pos
         then { removeGo f s.queue.length s with pos := 0 }
         else removeGo f s.queue.length s) := rfl
    rw [h, adjust_buttons_queue, adjust_buttons_pos]
    exact ⟨adjust_buttons_back _, adjust_buttons_fwd _⟩
  · intro s h0 h2
    constructor
    · exact (adjust_buttons_back s).mpr ⟨h2, by omega⟩
    · cases hb : (adjust_buttons s).fwd_on
      · rfl
      · have := (adjust_buttons_fwd s).mp hb
        omega
  · intro s h2
    constructor
    · cases hb : (adjust_buttons s).back_on
      · rfl
      · have := (adjust_buttons_back s).mp hb
        omega
    · cases hb : (adjust_buttons s).fwd_on
      · rfl
      · have := (adjust_buttons_fwd s).mp hb
        omega

/-! ### C8 -/

/-- What navqueue_remove_file does on a non-NULL filename: filter the queue
by file name, then reset the cursor to 0 exactly when it fell out of
bounds. -/
theorem navqueue_remove_file_some_spec (s : NavState) (f : String) :
    (navqueue_remove_file s (some f)).queue
        = s.queue.filter (fun a => !(find_by_filename a f)) ∧
      (navqueue_remove_file s (some f)).pos =
        if (s.queue.filter (fun a => !(find_by_filename a f))).length ≤ s.pos
        then 0 else s.pos := by
  obtain ⟨hq, hp⟩ := removeGo_spec f s.queue.length s (Nat.le_refl _)
  have h : navqueue_remove_file s (some f) = adjust_buttons
      (if (removeGo f s.queue.length s).queue.length ≤ (removeGo f s.queue.length s).pos
       then { removeGo f s.queue.length s with pos := 0 }
       else removeGo f s.queue.length s) := rfl
  rw [h]
  constructor
  · rw [adjust_buttons_queue]
    split
    · exact hq
    · exact hq
  · rw [adjust_buttons_pos]
    split
    · next hcond =>
        rw [hq, hp] at hcond
        rw [if_pos hcond]
    · next hcond =>
        rw [hq, hp] at hcond
        rw [if_neg hcond]
        exact hp

/-- C8: remove_all_for_file removes exactly the anchors whose file identity
matches, keeps every other anchor, and afterwards resets the cursor to 0
exactly when it falls outside the new bounds. -/
theorem C8_remove_file (s : NavState) (f : String) :
    (navqueue_remove_file s (some f)).queue
        = s.queue.filter (fun a => !(find_by_filename a f)) ∧
      (navqueue_remove_file s (some f)).pos =
        if (s.queue.filter (fun a => !(find_by_filename a f))).length ≤ s.pos
        then 0 else s.pos :=
  navqueue_remove_file_some_spec s f

/-! ### C10 -/

/-- Value-level dichotomy for clear_anchor: an indicator unit is either
untouched, or it held the destroyed anchor's refreshed id and is now 0. -/
theorem clear_anchor_tags_cases (s : NavState) (a : NavigationAnchor) (dd : DocId) (q : Nat) :
    ((clear_anchor s a).docs dd).tags q = (s.docs dd).tags q ∨
      ((s.docs dd).tags q = (refresh_anchor s a).id ∧
        ((clear_anchor s a).docs dd).tags q = 0) := by
  simp only [clear_anchor]
  split
  · exact Or.inl rfl
  · next d hd =>
      split
      · next heq =>
          rw [setTag_tags]
          by_cases hdq : dd = d ∧ q = (refresh_anchor s a).pos
          · rw [if_pos hdq]
            refine Or.inr ⟨?_, rfl⟩
            obtain ⟨h1, h2⟩ := hdq
            rw [h1, h2]
            exact heq
          · rw [if_neg hdq]
            exact Or.inl rfl
      · exact Or.inl rfl

/-- C10: destroying an anchor never clears another live anchor's marker tag:
clear_anchor clears one unit only where the substrate value equals its own
(refreshed) id, so any unit tagged with a different anchor's id is
unchanged. -/
theorem C10_clear_anchor_frame (s : NavState) (a b : NavigationAnchor)
    (dd : DocId) (q : Nat) (hne : b.id ≠ a.id)
    (htag : (s.docs dd).tags q = b.id) :
    ((clear_anchor s a).docs dd).tags q = b.id := by
  rcases clear_anchor_tags_cases s a dd q with h | ⟨h1, h2⟩
  · rw [h]; exact htag
  · rw [htag] at h1
    rcases refresh_anchor_id_cases s a with hc | hc
    · rw [hc] at h1
      exact absurd h1 hne
    · rw [hc] at h1
      rw [h2, h1]

/-- Witness for C10 at a concrete state: destroying the lost anchor exA1
leaves exA0's tag (id 3 at position 5) in place. -/
theorem C10_witness :
    exA0.id ≠ exA1.id ∧ (exS1.docs 0).tags 5 = exA0.id ∧
      ((clear_anchor exS1 exA1).docs 0).tags 5 = exA0.id :=
  ⟨by decide, by decide, C10_clear_anchor_frame exS1 exA1 exA0 0 5 (by decide) (by decide)⟩

/-! ### C4 -/

/-- One navqueue_add_position call keeps the queue within the bound. -/
theorem navqueue_add_position_length_le (s : NavState) (d : DocId) (p : Nat)
    (h : s.queue.length ≤ MAX_NAVQUEUE_LENGTH) :
    (navqueue_add_position s d p).queue.length ≤ MAX_NAVQUEUE_LENGTH := by
  cases hfn : (s.docs d).file_name with
  | none =>
      rw [navqueue_add_position_no_file s d p hfn]
      exact h
  | some fn =>
      cases hm : (queue_pos_matches s s.pos d p).2
      · rw [navqueue_add_position_full_eq s d p fn hfn hm, add_full_queue, List.length_take]
        exact Nat.min_le_left _ _
      · rw [navqueue_add_position_dedup s d p fn hfn hm, queue_pos_matches_length]
        exact h

theorem recordAll_length_le : ∀ (l : List (DocId × Nat)) (s : NavState),
    s.queue.length ≤ MAX_NAVQUEUE_LENGTH →
    (recordAll s l).queue.length ≤ MAX_NAVQUEUE_LENGTH := by
  intro l
  induction l with
  | nil => intro s h; exact h
  | cons c rest ih =>
      intro s h
      exact ih _ (navqueue_add_position_length_le s c.1 c.2 h)

/-- C4: starting from the empty queue, any sequence of record_position calls
keeps the queue length at most 100, and the trimming loop itself keeps
exactly the 100 newest entries, evicting from the tail. -/
theorem C4_length_bound :
    (∀ (docs : DocId → DocState) (ol : List DocId) (l : List (DocId × Nat)),
      (recordAll (navqueue_init docs ol) l).queue.length ≤ MAX_NAVQUEUE_LENGTH) ∧
    (∀ s : NavState,
      (trimGo s.queue.length s).queue = s.queue.take MAX_NAVQUEUE_LENGTH) := by
  constructor
  · intro docs ol l
    apply recordAll_length_le
    simp [navqueue_init, MAX_NAVQUEUE_LENGTH]
  · intro s
    exact trimGo_queue _ _ (Nat.le_refl _)

/-! ### C3 -/

/-- C3: the stepping phase of go_back never partially succeeds: when a step
is due (queue non-empty, cursor not at the oldest index), either goto_anchor
succeeds and the cursor advances by exactly one with the queue length
unchanged, or it fails and that single entry is removed, shrinking the queue
by exactly one with the cursor unchanged.  navqueue_go_back is the record
phase followed by go_back_step. -/
theorem C3_go_back_never_partial (s : NavState)
    (h0 : s.queue.length ≠ 0) (h1 : s.pos < s.queue.length - 1) :
    ∃ a, s.queue.get? (s.pos + 1) = some a ∧
      (((goto_anchor s a).2.2 = true ∧
          (go_back_step s).queue.length = s.queue.length ∧
          (go_back_step s).pos = s.pos + 1) ∨
       ((goto_anchor s a).2.2 = false ∧
          (go_back_step s).queue.length = s.queue.length - 1 ∧
          (go_back_step s).pos = s.pos)) :=
  go_back_step_cases s h0 h1

/-- Witness for C3 at a concrete state with two entries and cursor 0. -/
theorem C3_witness :
    exS1.queue.length ≠ 0 ∧ exS1.pos < exS1.queue.length - 1 ∧
      (∃ a, exS1.queue.get? (exS1.pos + 1) = some a ∧
        (((goto_anchor exS1 a).2.2 = true ∧
            (go_back_step exS1).queue.length = exS1.queue.length ∧
            (go_back_step exS1).pos = exS1.pos + 1) ∨
         ((goto_anchor exS1 a).2.2 = false ∧
            (go_back_step exS1).queue.length = exS1.queue.length - 1 ∧
            (go_back_step exS1).pos = exS1.pos))) :=
  ⟨by decide, by decide, C3_go_back_never_partial exS1 (by decide) (by decide)⟩

/-! ### C6 -/

/-- With an always-advancing end and the sought id absent, the scan runs out
of any amount of fuel: the C loop would never stop. -/
theorem scanForId_succ_never_stops : ∀ (fuel p : Nat),
    scanForId (fun _ => 0) (fun q => q + 1) 1 fuel p = ScanResult.fuelOut := by
  intro fuel
  induction fuel with
  | zero => intro p; rfl
  | succ m ih =>
      intro p
      simp only [scanForId]
      rw [if_neg (by omega), if_neg (by omega)]
      exact ih (p + 1)

/-- C6 counterexample: the slow-path scan does not terminate for every
marker-substrate end-function; with `indEnd` always advancing and the tag
absent, no iteration bound makes the loop stop. -/
theorem C6_counterexample :
    ¬ ∀ (valueAt indEnd : Nat → Nat) (i : Nat),
        ∃ fuel, scanForId valueAt indEnd i fuel 0 ≠ ScanResult.fuelOut := by
  intro h
  obtain ⟨fuel, hf⟩ := h (fun _ => 0) (fun q => q + 1) 1
  exact hf (scanForId_succ_never_stops fuel 0)

/-- C6 amended: the scan terminates whenever the end-function is bounded (as
the real substrate is, by the document length): with fuel exceeding the
bound the loop always reaches found or gone; and it stops with `gone` as
soon as the returned end does not advance (upon which refresh_anchor sets
the marker id to 0). -/
theorem C6_scan_termination :
    (∀ (valueAt indEnd : Nat → Nat) (i L fuel p : Nat),
      (∀ q, indEnd q ≤ L) → p ≤ L → L < p + fuel →
      scanForId valueAt indEnd i fuel p ≠ ScanResult.fuelOut) ∧
    (∀ (valueAt indEnd : Nat → Nat) (i fuel p : Nat),
      valueAt p ≠ i → indEnd p ≤ p →
      scanForId valueAt indEnd i (fuel + 1) p = ScanResult.gone) := by
  constructor
  · intro valueAt indEnd i L fuel
    induction fuel with
    | zero => intro p hb hp hfuel; omega
    | succ m ih =>
        intro p hb hp hfuel
        simp only [scanForId]
        split
        · simp
        · split
          · simp
          · next hadv =>
              push_neg at hadv
              exact ih (indEnd p) hb (hb p) (by omega)
  · intro valueAt indEnd i fuel p hv hle
    simp only [scanForId]
    rw [if_neg hv, if_pos hle]

/-- Witness for C6 at a concrete bounded substrate. -/
theorem C6_witness :
    (∀ q : Nat, (fun _ : Nat => 0) q ≤ 0) ∧ (0 : Nat) ≤ 0 ∧ (0 : Nat) < 0 + 1 ∧
      scanForId (fun _ => 0) (fun _ => 0) 1 1 0 ≠ ScanResult.fuelOut :=
  ⟨fun _ => Nat.le_refl 0, Nat.le_refl 0, by decide,
    C6_scan_termination.1 (fun _ => 0) (fun _ => 0) 1 0 1 0
      (fun _ => Nat.le_refl 0) (Nat.le_refl 0) (by decide)⟩

/-! ### C1 -/

/-- C1 counterexample: the entry at index 1 of exS1 has marker id 0, yet
go_back targeting it moves the editor cursor of its live document from 5 to
its cached offset 7, advances the history cursor, and does not evict the
entry. -/
theorem C1_counterexample :
    exS1.queue.get? 1 = some exA1 ∧ exA1.id = 0 ∧
      (exS1.docs 0).cur_pos = 5 ∧
      ((navqueue_go_back exS1 (some 0)).docs 0).cur_pos = 7 ∧
      (navqueue_go_back exS1 (some 0)).queue.length = 2 ∧
      (navqueue_go_back exS1 (some 0)).pos = 1 := by
  decide

theorem setCurPos_cur_pos (s : NavState) (d : DocId) (p : Nat) :
    ((setCurPos s d p).docs d).cur_pos = p := by
  simp [setCurPos]

/-- C1 amended: for an anchor with marker id 0, refresh stops early without
rescanning: it keeps the cached offset (and the id stays 0); goto_anchor on
such an anchor fails only when no live document resolves for its file, and
when one does resolve it navigates to the cached fallback offset (moving
the editor cursor there when the editor primitive succeeds). -/
theorem C1_id_zero_fallback (s : NavState) (a : NavigationAnchor) (h : a.id = 0) :
    (refresh_anchor s a).pos = a.pos ∧ (refresh_anchor s a).id = 0 ∧
      ((goto_anchor s a).2.2 =
        match resolve_doc s a with
        | none => false
        | some d => (s.docs d).goto_ok a.pos) ∧
      (∀ d, resolve_doc s a = some d → (goto_anchor s a).2.2 = true →
        ((goto_anchor s a).1.docs d).cur_pos = a.pos) := by
  cases hres : resolve_doc s a with
  | none =>
      have hr : refresh_anchor s a = { a with doc := none } :=
        refresh_anchor_of_resolve_none s a hres
      refine ⟨by rw [hr], by rw [hr]; exact h, ?_, ?_⟩
      · simp only [goto_anchor, hr]
      · intro d hd
        cases hd
  | some d =>
      have hr : refresh_anchor s a = { a with doc := some d } :=
        refresh_anchor_of_id_zero s a d hres h
      refine ⟨by rw [hr], by rw [hr]; exact h, ?_, ?_⟩
      · simp only [goto_anchor, hr]
        cases hg : (s.docs d).goto_ok a.pos <;> simp [hg]
      · intro d2 hd2 hok
        cases hd2
        simp only [goto_anchor, hr] at hok ⊢
        cases hg : (s.docs d).goto_ok a.pos
        · rw [hg] at hok
          simp at hok
        · simp only [eq_self_iff_true, if_true]
          exact setCurPos_cur_pos s d a.pos
  
/-- Witness for the amended C1 at the concrete lost anchor exA1. -/
theorem C1_witness :
    exA1.id = 0 ∧
      ((refresh_anchor exS1 exA1).pos = exA1.pos ∧ (refresh_anchor exS1 exA1).id = 0 ∧
        ((goto_anchor exS1 exA1).2.2 =
          match resolve_doc exS1 exA1 with
          | none => false
          | some d => (exS1.docs d).goto_ok exA1.pos) ∧
        (∀ d, resolve_doc exS1 exA1 = some d → (goto_anchor exS1 exA1).2.2 = true →
          ((goto_anchor exS1 exA1).1.docs d).cur_pos = exA1.pos)) :=
  ⟨rfl, C1_id_zero_fallback exS1 exA1 rfl⟩

/-! ### C2 -/

/-- C2 counterexample: in exS2 the cursor is at k = 1 in a 2-entry queue and
the recorded pair (document 1, offset 9) does not match the cursor entry;
the resulting queue has 2 entries (the k truncated entries are replaced and
one new entry is pushed), not length - k = 1 as claimed. -/
theorem C2_counterexample :
    exS2.pos = 1 ∧ exS2.queue.length = 2 ∧
      (exS2.docs 1).file_name = some "g" ∧
      (queue_pos_matches exS2 exS2.pos 1 9).2 = false ∧
      (navqueue_add_position exS2 1 9).queue.length = 2 ∧
      (navqueue_add_position exS2 1 9).queue.length ≠ exS2.queue.length - exS2.pos := by
  decide

/-- C2 amended: with a named document, cursor k > 0 in bounds, queue within
the length bound, and a non-matching pair, record_position yields exactly
length - k + 1 entries: the old entries at indices 0..k-1 are gone, one
fresh anchor sits at the head, and the cursor is 0. -/
theorem C2_truncation (s : NavState) (d : DocId) (p : Nat) (fn : String)
    (hfn : (s.docs d).file_name = some fn) (h0 : 0 < s.pos)
    (h1 : s.pos < s.queue.length) (hb : s.queue.length ≤ MAX_NAVQUEUE_LENGTH)
    (hm : (queue_pos_matches s s.pos d p).2 = false) :
    (navqueue_add_position s d p).queue.length = s.queue.length - s.pos + 1 ∧
      (navqueue_add_position s d p).pos = 0 ∧
      (navqueue_add_position s d p).queue
        = ({ file := fn, doc := some d, id := s.counter + 1, pos := p } : NavigationAnchor)
            :: (queue_pos_matches s s.pos d p).1.queue.drop s.pos := by
  have hql : (queue_pos_matches s s.pos d p).1.queue.length = s.queue.length :=
    queue_pos_matches_length ..
  have hqp : (queue_pos_matches s s.pos d p).1.pos = s.pos :=
    queue_pos_matches_pos ..
  have hqc : (queue_pos_matches s s.pos d p).1.counter = s.counter :=
    queue_pos_matches_counter ..
  rw [navqueue_add_position_full_eq s d p fn hfn hm]
  have hqueue : (add_full (queue_pos_matches s s.pos d p).1 d fn p).queue
      = ({ file := fn, doc := some d, id := s.counter + 1, pos := p } : NavigationAnchor)
          :: (queue_pos_matches s s.pos d p).1.queue.drop s.pos := by
    rw [add_full_queue, hqc, hqp]
    apply List.take_of_length_le
    simp only [List.length_cons, List.length_drop, hql]
    show s.queue.length - s.pos + 1 ≤ MAX_NAVQUEUE_LENGTH
    omega
  refine ⟨?_, add_full_pos .., hqueue⟩
  rw [hqueue]
  simp only [List.length_cons, List.length_drop, hql]

/-- Witness for the amended C2 at the concrete state exS2. -/
theorem C2_witness :
    (exS2.docs 1).file_name = some "g" ∧ 0 < exS2.pos ∧
      exS2.pos < exS2.queue.length ∧ exS2.queue.length ≤ MAX_NAVQUEUE_LENGTH ∧
      (queue_pos_matches exS2 exS2.pos 1 9).2 = false ∧
      ((navqueue_add_position exS2 1 9).queue.length
          = exS2.queue.length - exS2.pos + 1 ∧
        (navqueue_add_position exS2 1 9).pos = 0 ∧
        (navqueue_add_position exS2 1 9).queue
          = ({ file := "g", doc := some 1, id := exS2.counter + 1, pos := 9 }
              : NavigationAnchor)
              :: (queue_pos_matches exS2 exS2.pos 1 9).1.queue.drop exS2.pos) :=
  ⟨by decide, by decide, by decide, by decide, by decide,
    C2_truncation exS2 1 9 "g" (by decide) (by decide) (by decide) (by decide) (by decide)⟩

/-! ### C9 -/

/-- An open document named "f1" whose editor accepts every goto. -/
def exDocF1 : DocState :=
  { is_valid := true, file_name := some "f1", tags := fun _ => 0,
    indEnd := fun _ => 0, len := 20, cur_pos := 10, goto_ok := fun _ => true }

/-- An open document named "f2" whose editor refuses to go to offset 5. -/
def exDocF2 : DocState :=
  { is_valid := true, file_name := some "f2", tags := fun _ => 0,
    indEnd := fun _ => 0, len := 20, cur_pos := 5, goto_ok := fun q => decide (q ≠ 5) }

/-- A trace of public operations from init: record (doc 0, 10), record
(doc 1, 5), go_back with doc 1 current, then go_forward, whose goto fails. -/
def exS9 : NavState :=
  navqueue_go_forward (navqueue_go_back
    (navqueue_add_position (navqueue_add_position
      (navqueue_init (fun i => if i = 0 then exDocF1 else if i = 1 then exDocF2
        else exDummyDoc) [0, 1])
      0 10) 1 5)
    (some 1))

/-- C9 counterexample: after the exS9 trace of public operations from init,
the cursor equals the queue length (1 = 1), so it is neither 0 nor strictly
less than the length. -/
theorem C9_counterexample :
    ¬ (exS9.pos = 0 ∨ exS9.pos < exS9.queue.length) := by
  decide

/-- One navqueue_add_position call preserves cursor ≤ length. -/
theorem navqueue_add_position_pos_le (s : NavState) (d : DocId) (p : Nat)
    (h : s.pos ≤ s.queue.length) :
    (navqueue_add_position s d p).pos ≤ (navqueue_add_position s d p).queue.length := by
  cases hfn : (s.docs d).file_name with
  | none =>
      rw [navqueue_add_position_no_file s d p hfn]
      exact h
  | some fn =>
      cases hm : (queue_pos_matches s s.pos d p).2
      · rw [navqueue_add_position_full_eq s d p fn hfn hm, add_full_pos]
        exact Nat.zero_le _
      · rw [navqueue_add_position_dedup s d p fn hfn hm, queue_pos_matches_length,
          queue_pos_matches_pos]
        exact h

theorem go_back_step_pos_le (s : NavState) (h : s.pos ≤ s.queue.length) :
    (go_back_step s).pos ≤ (go_back_step s).queue.length := by
  by_cases hg : s.queue.length = 0 ∨ s.queue.length - 1 ≤ s.pos
  · simp only [go_back_step, if_pos hg]
    exact h
  · push_neg at hg
    obtain ⟨a, hget, hc⟩ := go_back_step_cases s hg.1 (by omega)
    rcases hc with ⟨hf, hlen, hpos⟩ | ⟨hf, hlen, hpos⟩ <;> omega

theorem navqueue_go_forward_pos_le (s : NavState) (h : s.pos ≤ s.queue.length) :
    (navqueue_go_forward s).pos ≤ (navqueue_go_forward s).queue.length := by
  by_cases hg : s.pos < 1 ∨ s.queue.length ≤ s.pos
  · simp only [navqueue_go_forward, if_pos hg]
    exact h
  · push_neg at hg
    obtain ⟨a, hget, hc⟩ := go_forward_cases s hg.1 hg.2
    rcases hc with ⟨hf, hlen, hpos⟩ | ⟨hf, hlen, hpos⟩ <;> omega

theorem navqueue_remove_file_pos_le (s : NavState) (fl : Option String)
    (h : s.pos ≤ s.queue.length) :
    (navqueue_remove_file s fl).pos ≤ (navqueue_remove_file s fl).queue.length := by
  cases fl with
  | none => exact h
  | some f =>
      obtain ⟨hq, hp⟩ := navqueue_remove_file_some_spec s f
      rw [hq, hp]
      split
      · exact Nat.zero_le _
      · omega

/-- C9 amended: the in-bounds invariant that actually holds is cursor ≤
length (not cursor < length): init establishes it, every public operation
preserves it, and on an empty queue the cursor is 0; after a failed
go_forward at the oldest entry, the cursor can equal the length. -/
theorem C9_cursor_le_length :
    (∀ (docs : DocId → DocState) (ol : List DocId),
      (navqueue_init docs ol).pos ≤ (navqueue_init docs ol).queue.length) ∧
    (∀ (s : NavState) (d : DocId) (p : Nat), s.pos ≤ s.queue.length →
      (navqueue_add_position s d p).pos ≤ (navqueue_add_position s d p).queue.length) ∧
    (∀ (s : NavState) (cur : Option DocId), s.pos ≤ s.queue.length →
      (navqueue_go_back s cur).pos ≤ (navqueue_go_back s cur).queue.length) ∧
    (∀ s : NavState, s.pos ≤ s.queue.length →
      (navqueue_go_forward s).pos ≤ (navqueue_go_forward s).queue.length) ∧
    (∀ (s : NavState) (fl : Option String), s.pos ≤ s.queue.length →
      (navqueue_remove_file s fl).pos ≤ (navqueue_remove_file s fl).queue.length) ∧
    (∀ s : NavState, s.pos ≤ s.queue.length → s.queue.length = 0 → s.pos = 0) := by
  refine ⟨fun docs ol => Nat.le_refl 0, navqueue_add_position_pos_le, ?_,
    navqueue_go_forward_pos_le, navqueue_remove_file_pos_le, fun s h h0 => by omega⟩
  intro s cur h
  cases cur with
  | none => exact go_back_step_pos_le s h
  | some dd => exact go_back_step_pos_le _ (navqueue_add_position_pos_le s dd _ h)

/-- Witness for the amended C9 at a concrete state. -/
theorem C9_witness :
    exS2.pos ≤ exS2.queue.length ∧
      (navqueue_add_position exS2 1 9).pos ≤ (navqueue_add_position exS2 1 9).queue.length :=
  ⟨by decide, C9_cursor_le_length.2.1 exS2 1 9 (by decide)⟩

/-! ### C5 -/

/-- Dedup early-return, phrased at an explicit probe index equal to the
state's cursor. -/
theorem navqueue_add_position_dedup_at (s : NavState) (d : DocId) (p : Nat) (fn : String)
    (qp : Nat) (hq : s.pos = qp) (hfn : (s.docs d).file_name = some fn)
    (hm : (queue_pos_matches s qp d p).2 = true) :
    navqueue_add_position s d p = (queue_pos_matches s qp d p).1 := by
  subst hq
  exact navqueue_add_position_dedup s d p fn hfn hm

/-- C5: record_position is idempotent when called twice in a row with the
same live document and offset: the second call hits the dedup check (the
head/cursor entry has the same file and, after refresh, the same offset)
and leaves the queue length and the cursor unchanged.  The state is assumed
well formed (queued ids at most the counter) and the document valid. -/
theorem C5_record_idempotent (s : NavState) (d : DocId) (p : Nat)
    (hwf : ∀ x ∈ s.queue, x.id ≤ s.counter)
    (hv : (s.docs d).is_valid = true) :
    (navqueue_add_position (navqueue_add_position s d p) d p).queue.length
        = (navqueue_add_position s d p).queue.length ∧
      (navqueue_add_position (navqueue_add_position s d p) d p).pos
        = (navqueue_add_position s d p).pos := by
  cases hfn : (s.docs d).file_name with
  | none =>
      rw [navqueue_add_position_no_file s d p hfn,
        navqueue_add_position_no_file s d p hfn]
      exact ⟨rfl, rfl⟩
  | some fn =>
      cases hm : (queue_pos_matches s s.pos d p).2 with
      | true =>
          obtain ⟨a, hget, hname, hpos, hstate⟩ := queue_pos_matches_true_inv s s.pos d p hm
          obtain ⟨hlt, -⟩ := List.get?_eq_some.mp hget
          have hs1 : navqueue_add_position s d p
              = { s with queue := s.queue.set s.pos (refresh_anchor s a) } := by
            rw [navqueue_add_position_dedup s d p fn hfn hm, hstate]
          have hget2 : ({ s with queue := s.queue.set s.pos (refresh_anchor s a) }
              : NavState).queue.get? s.pos = some (refresh_anchor s a) := by
            show (s.queue.set s.pos (refresh_anchor s a)).get? s.pos
                = some (refresh_anchor s a)
            exact List.get?_set_eq_of_lt _ hlt
          have hname2 : utils_str_equal (some (refresh_anchor s a).file)
              ((({ s with queue := s.queue.set s.pos (refresh_anchor s a) }
                : NavState).docs d).file_name) = true := by
            show utils_str_equal (some (refresh_anchor s a).file)
                ((s.docs d).file_name) = true
            rw [refresh_anchor_file]
            exact hname
          have hpos2 : (refresh_anchor
              { s with queue := s.queue.set s.pos (refresh_anchor s a) }
              (refresh_anchor s a)).pos = p := by
            rw [refresh_anchor_congr
              { s with queue := s.queue.set s.pos (refresh_anchor s a) } s
              (refresh_anchor s a) rfl rfl]
            rw [refresh_anchor_idem]
            exact hpos
          obtain ⟨hm2, hstate2⟩ := queue_pos_matches_true_intro
            { s with queue := s.queue.set s.pos (refresh_anchor s a) } s.pos d p
            (refresh_anchor s a) hget2 hname2 hpos2
          rw [hs1, navqueue_add_position_dedup_at
            { s with queue := s.queue.set s.pos (refresh_anchor s a) } d p fn s.pos rfl
            hfn hm2, hstate2]
          constructor
          · show (({ s with queue := s.queue.set s.pos (refresh_anchor s a) }
                : NavState).queue.set s.pos _).length = _
            rw [List.length_set]
          · rfl
      | false =>
          have heq1 := navqueue_add_position_full_eq s d p fn hfn hm
          have hMwf : ∀ x ∈ (queue_pos_matches s s.pos d p).1.queue,
              x.id ≤ (queue_pos_matches s s.pos d p).1.counter := by
            rw [queue_pos_matches_counter]
            exact queue_pos_matches_mem_id s s.pos d p s.counter hwf
          have htag1 : ((add_full (queue_pos_matches s s.pos d p).1 d fn p).docs d).tags p
              = (queue_pos_matches s s.pos d p).1.counter + 1 :=
            add_full_tags _ d fn p hMwf
          have hvalid1 : ((add_full (queue_pos_matches s s.pos d p).1 d fn p).docs d).is_valid
              = true := by
            rw [add_full_docs_is_valid]
            rw [queue_pos_matches_docs]
            exact hv
          have hfn1 : ((add_full (queue_pos_matches s s.pos d p).1 d fn p).docs d).file_name
              = some fn := by
            rw [add_full_docs_file_name]
            rw [queue_pos_matches_docs]
            exact hfn
          have hget1 : (add_full (queue_pos_matches s s.pos d p).1 d fn p).queue.get? 0
              = some { file := fn, doc := some d,
                       id := (queue_pos_matches s s.pos d p).1.counter + 1, pos := p } := by
            rw [add_full_queue]
            rw [List.get?_take (by decide : (0:Nat) < MAX_NAVQUEUE_LENGTH)]
            rfl
          have hname1 : utils_str_equal
              (some ({ file := fn, doc := some d,
                       id := (queue_pos_matches s s.pos d p).1.counter + 1, pos := p }
                : NavigationAnchor).file)
              (((add_full (queue_pos_matches s s.pos d p).1 d fn p).docs d).file_name)
              = true := by
            rw [hfn1]
            show utils_str_equal (some fn) (some fn) = true
            simp [utils_str_equal]
          have hres1 : resolve_doc (add_full (queue_pos_matches s s.pos d p).1 d fn p)
              { file := fn, doc := some d,
                id := (queue_pos_matches s s.pos d p).1.counter + 1, pos := p }
              = some d := by
            apply resolve_doc_of_good _ _ d rfl hvalid1
            rw [hfn1]
            show utils_str_equal (some fn) (some fn) = true
            simp [utils_str_equal]
          have hrefresh1 : refresh_anchor (add_full (queue_pos_matches s s.pos d p).1 d fn p)
              { file := fn, doc := some d,
                id := (queue_pos_matches s s.pos d p).1.counter + 1, pos := p }
              = { file := fn, doc := some d,
                  id := (queue_pos_matches s s.pos d p).1.counter + 1, pos := p } := by
            rw [refresh_anchor_of_fast _ _ d hres1 (Nat.succ_ne_zero _) htag1]
          have hpos2 : (refresh_anchor (add_full (queue_pos_matches s s.pos d p).1 d fn p)
              { file := fn, doc := some d,
                id := (queue_pos_matches s s.pos d p).1.counter + 1, pos := p }).pos = p := by
            rw [hrefresh1]
          obtain ⟨hm2, hstate2⟩ := queue_pos_matches_true_intro
            (add_full (queue_pos_matches s s.pos d p).1 d fn p) 0 d p
            { file := fn, doc := some d,
              id := (queue_pos_matches s s.pos d p).1.counter + 1, pos := p }
            hget1 hname1 hpos2
          rw [heq1, navqueue_add_position_dedup_at
            (add_full (queue_pos_matches s s.pos d p).1 d fn p) d p fn 0
            (add_full_pos ..) hfn1 hm2, hstate2]
          constructor
          · show ((add_full (queue_pos_matches s s.pos d p).1 d fn p).queue.set 0 _).length
                = _
            rw [List.length_set]
          · rfl

/-- Witness for C5 at the concrete state exS2 with a valid document. -/
theorem C5_witness :
    (∀ x ∈ exS2.queue, x.id ≤ exS2.counter) ∧ (exS2.docs 1).is_valid = true ∧
      ((navqueue_add_position (navqueue_add_position exS2 1 9) 1 9).queue.length
          = (navqueue_add_position exS2 1 9).queue.length ∧
        (navqueue_add_position (navqueue_add_position exS2 1 9) 1 9).pos
          = (navqueue_add_position exS2 1 9).pos) :=
  ⟨by decide, by decide, C5_record_idempotent exS2 1 9 (by decide) (by decide)⟩

/-- Witness for C7 at a concrete state with cursor 0 and two entries. -/
theorem C7_witness :
    exS1.pos = 0 ∧ 2 ≤ exS1.queue.length ∧
      (adjust_buttons exS1).back_on = true ∧ (adjust_buttons exS1).fwd_on = false :=
  ⟨by decide, by decide,
    (C7_affordance_rule.2.2.1 exS1 (by decide) (by decide)).1,
    (C7_affordance_rule.2.2.1 exS1 (by decide) (by decide)).2⟩

end Navqueue

